import Mathlib

/-!
Shallow embedding of `penaltyblog/models/bayesian_hierarchical.py`
(class `BayesianHierarchicalGoalModel`).

Modelling conventions:
* Python numbers are exact rationals (inputs) and real numbers (fitted
  parameters and probabilities); machine floating point is abstracted.
* The pandas frame `DataFrame([gh, ga, th, ta]).T` pads the four columns
  to the longest length with missing values; a padded cell is `Option.none`.
* `astype(int)` truncates toward zero and raises a `ValueError` when a
  goals column holds a missing value.
* The MCMC sampler (`pm.sample`) is external and stochastic; `fit` takes
  its outcome as an argument: either a raised error or a list of
  post-warm-up draws.  Each draw carries the raw latent values
  (`home`, `intercept`, `atts_star`, `def_star`); the deterministic
  centering of lines 138-139 of the source is applied by `attsOf`/`defsOf`.
* The sampler configuration (`draws`, `n_jobs`, lines 99-107) only
  parametrises that external sampler and is not carried in the state.
* Python dictionaries are association lists; insertion preserves order and
  `d[k] = v` overwrites the first matching key.
-/

namespace PenaltyBlog

/-- Python exceptions raised by the model code: every explicit failure in
`bayesian_hierarchical.py` is a `ValueError` carrying a message; reading a
missing dictionary key is a `KeyError`. -/
inductive PyError where
  | valueError (msg : String)
  | keyError (key : String)
  deriving DecidableEq

/-- Message of the `ValueError` raised by `predict` on an unfitted model
(source lines 194-199). -/
def predictNotFittedMsg : String :=
  "Model\x27s parameters have not been fit yet, please call the `fit()` function before making any predictions"

/-- Message of the `ValueError` raised when the home team is unknown
(source lines 203-208). -/
def noHomeParamsMsg : String :=
  "No parameters for home team - please ensure the team was included in the training data"

/-- Message of the `ValueError` raised when the away team is unknown
(source lines 211-216). -/
def noAwayParamsMsg : String :=
  "No parameters for away team - please ensure the team was included in the training data"

/-- Message of the `ValueError` raised by `get_params` on an unfitted model
(source lines 248-250). -/
def getParamsNotFittedMsg : String :=
  "Model\x27s parameters have not been fit yet, please call the `fit()` function first"

/-- Message of the `ValueError` pandas raises when `astype(int)` meets a
missing value (padding of unequal-length input columns). -/
def castErrMsg : String :=
  "Cannot convert non-finite values (NA or inf) to integer"

/-- Message of the `ValueError` pandas raises when a weights sequence of the
wrong length is assigned as a column (source line 64). -/
def lengthErrMsg : String :=
  "Length of values does not match length of index"

/-- Truncation toward zero, the behaviour of Python `int()` and of the
pandas `astype(int)` cast on finite values. -/
def truncToInt (q : ℚ) : ℤ := q.num.tdiv q.den

/-- One column of `pd.DataFrame([gh, ga, th, ta]).T`: the list padded to
`n` entries with missing values. -/
def padCol (l : List α) (n : ℕ) : List (Option α) :=
  (List.range n).map fun i => l[i]?

/-- Lexicographic comparison of character lists by code point — the
ordering Python applies to strings. -/
def charListLe : List Char → List Char → Bool
  | [], _ => true
  | _ :: _, [] => false
  | a :: as, b :: bs =>
    if a < b then true else if b < a then false else charListLe as bs

/-- pandas `sort_values` ordering on a column with missing values:
strings in lexicographic order, missing values last. -/
def optLeB : Option String → Option String → Bool
  | some s, some t => charListLe s.data t.data
  | some _, none => true
  | none, none => true
  | none, some _ => false

/-- Insert into a sorted list, keeping it sorted under `le`. -/
def insertSorted (le : Option String → Option String → Bool)
    (a : Option String) : List (Option String) → List (Option String)
  | [] => [a]
  | b :: rest => if le a b then a :: b :: rest else b :: insertSorted le a rest

/-- Comparison sort of the deduplicated team column (pandas
`sort_values`).  The input is duplicate-free, so every comparison sort
produces this same list; insertion sort keeps the definition structurally
recursive. -/
def sortCol (le : Option String → Option String → Bool) :
    List (Option String) → List (Option String)
  | [] => []
  | a :: rest => insertSorted le a (sortCol le rest)

/-- The `weights` argument: a scalar broadcast to every row, or a sequence
that must match the frame length. -/
inductive PyWeights where
  | scalar (w : ℚ)
  | seq (ws : List ℚ)

/-- One posterior draw of the latent variables, as recorded in the trace
by the sampler: flat `home` and `intercept`, and the raw (uncentered)
team vectors `atts_star`, `def_star` (source lines 126-135). -/
structure Draw where
  home : ℝ
  intercept : ℝ
  attsStar : ℕ → ℝ
  defStar : ℕ → ℝ

/-- The pooled post-warm-up samples returned by `pm.sample`. -/
abbrev Trace := List Draw

/-- The state of a `BayesianHierarchicalGoalModel` instance. -/
structure Model where
  goalsHome : List ℤ
  goalsAway : List ℤ
  teamsHomeCol : List (Option String)
  teamsAwayCol : List (Option String)
  weights : List ℚ
  teams : List (Option String)
  nTeams : ℕ
  trace : Option Trace
  params : List (String × ℝ)
  fitted : Bool

/-- Length of the fixtures frame: the four input columns are padded to the
longest of their lengths. -/
def fixLen (goals_home goals_away : List ℚ) (teams_home teams_away : List String) : ℕ :=
  max (max goals_home.length goals_away.length) (max teams_home.length teams_away.length)

/-- `BayesianHierarchicalGoalModel.__init__` (source lines 30-109).
The frame is built by padding the four columns to a common length; the
goals columns are cast with `astype(int)` (failing on padded cells); the
weights column assignment fails on a length mismatch; the team universe is
the deduplicated, sorted home-team column; no other validation happens. -/
def construct (goals_home goals_away : List ℚ) (teams_home teams_away : List String)
    (weights : PyWeights) : Except PyError Model :=
  if goals_home.length < fixLen goals_home goals_away teams_home teams_away ∨
      goals_away.length < fixLen goals_home goals_away teams_home teams_away then
    .error (.valueError castErrMsg)
  else
    let n := fixLen goals_home goals_away teams_home teams_away
    let homeCol := padCol teams_home n
    let mk : List ℚ → Model := fun w =>
      Model.mk (goals_home.map truncToInt) (goals_away.map truncToInt)
        homeCol (padCol teams_away n) w
        (sortCol optLeB homeCol.dedup) homeCol.dedup.length
        none [] false
    match weights with
    | .scalar w => .ok (mk (List.replicate n w))
    | .seq ws => if ws.length = n then .ok (mk ws) else .error (.valueError lengthErrMsg)

/-- The centered attack value of team `i` in one draw:
`atts = atts_star - mean(atts_star)` over the `n` teams (source line 138). -/
noncomputable def attsOf (n : ℕ) (d : Draw) (i : ℕ) : ℝ :=
  d.attsStar i - (∑ j ∈ Finset.range n, d.attsStar j) / n

/-- The centered defence value of team `i` in one draw (source line 139). -/
noncomputable def defsOf (n : ℕ) (d : Draw) (i : ℕ) : ℝ :=
  d.defStar i - (∑ j ∈ Finset.range n, d.defStar j) / n

/-- `np.mean` over a list of reals. -/
noncomputable def meanList (l : List ℝ) : ℝ := l.sum / l.length

/-- The point estimate stored for `attack_<team i>`: the mean over all
pooled draws of the centered attack value (source lines 162-164). -/
noncomputable def attackValue (tr : Trace) (n i : ℕ) : ℝ :=
  meanList (tr.map fun d => attsOf n d i)

/-- The point estimate stored for `defence_<team i>` (source lines 165-167). -/
noncomputable def defenceValue (tr : Trace) (n i : ℕ) : ℝ :=
  meanList (tr.map fun d => defsOf n d i)

/-- The per-team loop of `fit` (source lines 161-167): iterate the team
rows in index order, writing `attack_<team>` then `defence_<team>`.
A missing team name (a padded cell) makes `"attack_" + row["team"]` raise
a `TypeError`; the returned flag records whether the loop completed. -/
noncomputable def teamParams (tr : Trace) (n : ℕ) :
    List (Option String) → ℕ → List (String × ℝ) × Bool
  | [], _ => ([], true)
  | none :: _, _ => ([], false)
  | some t :: rest, idx =>
    let p := teamParams tr n rest (idx + 1)
    (("attack_" ++ t, attackValue tr n idx) ::
      ("defence_" ++ t, defenceValue tr n idx) :: p.1, p.2)

/-- `BayesianHierarchicalGoalModel.fit` (source lines 111-169) as a state
transition.  The sampler outcome is an argument: if `pm.sample` raises, the
exception propagates and the instance is unchanged; otherwise the trace is
stored, the scalar means are written under keys `"home"` and
`"intercept"` (source lines 159-160), the per-team loop runs, and only
after it completes is `fitted` set to `True` (source line 169). -/
noncomputable def fit (m : Model) (sample : Except String Trace) :
    Except String Unit × Model :=
  match sample with
  | .error e => (.error e, m)
  | .ok tr =>
    let base := [("home", meanList (tr.map Draw.home)),
      ("intercept", meanList (tr.map Draw.intercept))]
    let tp := teamParams tr m.nTeams m.teams 0
    let m' := Model.mk m.goalsHome m.goalsAway m.teamsHomeCol m.teamsAwayCol
      m.weights m.teams m.nTeams (some tr) (base ++ tp.1) tp.2
    if tp.2 then (.ok (), m')
    else (.error "TypeError: can only concatenate str (not \x22float\x22) to str", m')

/-- Python `self.params[k]`: the stored value, or a `KeyError`. -/
def lookupKey (ps : List (String × ℝ)) (k : String) : Except PyError ℝ :=
  match ps.lookup k with
  | some v => .ok v
  | none => .error (.keyError k)

/-- Modelled from the spec: `football_probability_grid.py` is imported by
the source but is not among the given sources.  Per the spec (Scoreline
Grid, and the read-only accessors of the external-interface section) the
grid object stores the probability matrix and the two rate scalars
unchanged and exposes them read-only; no further behaviour is needed here. -/
structure FootballProbabilityGrid where
  grid : List (List ℝ)
  homeGoalExpectation : ℝ
  awayGoalExpectation : ℝ

/-- `scipy.stats.poisson(r).pmf(i) = exp(-r) rⁱ / i!`. -/
noncomputable def poissonPmf (r : ℝ) (i : ℕ) : ℝ :=
  Real.exp (-r) * r ^ i / (Nat.factorial i)

/-- `BayesianHierarchicalGoalModel.predict` (source lines 171-236):
fitted check, home-team check, away-team check, parameter reads, the two
rates, the two truncated pmf vectors over `np.arange(0, max_goals)`, and
the outer product with the home outcome as the row index. -/
noncomputable def predict (m : Model) (home_team away_team : String)
    (max_goals : ℤ) : Except PyError FootballProbabilityGrid :=
  if m.fitted = false then .error (.valueError predictNotFittedMsg)
  else if m.teams.contains (some home_team) = false then
    .error (.valueError noHomeParamsMsg)
  else if m.teams.contains (some away_team) = false then
    .error (.valueError noAwayParamsMsg)
  else do
    let home ← lookupKey m.params "home"
    let intercept ← lookupKey m.params "intercept"
    let atts_home ← lookupKey m.params ("attack_" ++ home_team)
    let atts_away ← lookupKey m.params ("attack_" ++ away_team)
    let defs_home ← lookupKey m.params ("defence_" ++ home_team)
    let defs_away ← lookupKey m.params ("defence_" ++ away_team)
    let home_goals := Real.exp (intercept + home + atts_home + defs_away)
    let away_goals := Real.exp (intercept + atts_away + defs_home)
    let hv := (List.range max_goals.toNat).map (poissonPmf home_goals)
    let av := (List.range max_goals.toNat).map (poissonPmf away_goals)
    .ok (FootballProbabilityGrid.mk (hv.map fun p => av.map fun q => p * q)
      home_goals away_goals)

/-- `BayesianHierarchicalGoalModel.get_params` (source lines 238-252):
after the fitted check it returns `self.params` itself. -/
def get_params (m : Model) : Except PyError (List (String × ℝ)) :=
  if m.fitted = false then .error (.valueError getParamsNotFittedMsg)
  else .ok m.params

/-! ### Python reference semantics for the parameter dictionary

`get_params` executes `return self.params`: in Python this hands the caller
a reference to the very dictionary object the model holds, not a copy.  To
state aliasing facts we make the one mutable dictionary explicit: it lives
in a heap of dictionary cells and the model object holds the cell index. -/

/-- Python `d[k] = v` on a dictionary: overwrite the first matching key in
place, else append a new entry. -/
def setKey : List (String × ℝ) → String → ℝ → List (String × ℝ)
  | [], k, v => [(k, v)]
  | (k', v') :: rest, k, v =>
    if k' = k then (k, v) :: rest else (k', v') :: setKey rest k v

/-- The heap of dictionary objects. -/
structure Heap where
  cells : List (List (String × ℝ))

/-- Dereference a dictionary cell. -/
def readDict (h : Heap) (r : ℕ) : List (String × ℝ) := h.cells.getD r []

/-- Mutate one key of the dictionary object at cell `r`. -/
def writeKey (h : Heap) (r : ℕ) (k : String) (v : ℝ) : Heap :=
  Heap.mk (h.cells.set r (setKey (readDict h r) k v))

/-- A model object whose `params` dictionary lives in the heap at
`paramsRef`; the `params` field of `base` is ignored. -/
structure HeapModel where
  base : Model
  paramsRef : ℕ

/-- `get_params` under reference semantics: `return self.params` returns
the reference to the model's own dictionary cell (source line 252). -/
def get_paramsH (_h : Heap) (hm : HeapModel) : Except PyError ℕ :=
  if hm.base.fitted = false then .error (.valueError getParamsNotFittedMsg)
  else .ok hm.paramsRef

/-- `predict` under reference semantics: every `self.params[...]` read
dereferences the model's dictionary cell at call time. -/
noncomputable def predictH (h : Heap) (hm : HeapModel) (home_team away_team : String)
    (max_goals : ℤ) : Except PyError FootballProbabilityGrid :=
  predict
    (Model.mk hm.base.goalsHome hm.base.goalsAway hm.base.teamsHomeCol
      hm.base.teamsAwayCol hm.base.weights hm.base.teams hm.base.nTeams
      hm.base.trace (readDict h hm.paramsRef) hm.base.fitted)
    home_team away_team max_goals

/-! ### Statement-side definitions taken from the spec's words -/

/-- The Scoreline Grid exactly as the spec phrases it: two truncated
Poisson probability-mass vectors of length `max_goals` over outcomes
`0 .. max_goals - 1`, combined as their outer product with the home
outcome as the row index and the away outcome as the column index. -/
noncomputable def claimOuterGrid (home_rate away_rate : ℝ) (max_goals : ℕ) :
    List (List ℝ) :=
  (List.range max_goals).map fun i =>
    (List.range max_goals).map fun j =>
      poissonPmf home_rate i * poissonPmf away_rate j

/-- Total probability mass captured by a grid. -/
noncomputable def gridSum (g : List (List ℝ)) : ℝ := (g.map List.sum).sum

/-! ### Concrete instances used by the witnesses -/

/-- A concrete fitted model over teams `A` and `B`, with point estimates
`home = 1` and all other parameters `0`. -/
noncomputable def mW : Model :=
  Model.mk [1, 0] [0, 2] [some "A", some "B"] [some "B", some "A"] [1, 1]
    [some "A", some "B"] 2 none
    [("home", 1), ("intercept", 0), ("attack_A", 0), ("defence_A", 0),
      ("attack_B", 0), ("defence_B", 0)] true

/-- The model freshly constructed from a concrete two-fixture dataset. -/
def mCW : Model :=
  match construct [1, 0] [0, 2] ["A", "B"] ["B", "A"] (PyWeights.scalar 1) with
  | .ok m => m
  | .error _ => Model.mk [] [] [] [] [] [] 0 none [] false

/-- A concrete one-draw trace with all latent values zero. -/
noncomputable def trW : Trace := [Draw.mk 0 0 (fun _ => 0) (fun _ => 0)]

/-! ### Helper lemmas -/

lemma predict_ok (m : Model) (homeT awayT : String) (k : ℤ)
    (vh vi vah vaa vdh vda : ℝ)
    (hf : m.fitted = true)
    (h1 : m.teams.contains (some homeT) = true)
    (h2 : m.teams.contains (some awayT) = true)
    (l1 : m.params.lookup "home" = some vh)
    (l2 : m.params.lookup "intercept" = some vi)
    (l3 : m.params.lookup ("attack_" ++ homeT) = some vah)
    (l4 : m.params.lookup ("attack_" ++ awayT) = some vaa)
    (l5 : m.params.lookup ("defence_" ++ homeT) = some vdh)
    (l6 : m.params.lookup ("defence_" ++ awayT) = some vda) :
    predict m homeT awayT k =
      .ok (FootballProbabilityGrid.mk
        ((List.range k.toNat).map fun i => (List.range k.toNat).map fun j =>
          poissonPmf (Real.exp (vi + vh + vah + vda)) i *
            poissonPmf (Real.exp (vi + vaa + vdh)) j)
        (Real.exp (vi + vh + vah + vda)) (Real.exp (vi + vaa + vdh))) := by
  simp only [predict, hf, h1, h2, lookupKey, l1, l2, l3, l4, l5, l6]
  simp [bind, Except.bind, List.map_map, Function.comp]

lemma construct_ok_unfitted (gh ga : List ℚ) (th ta : List String) (w : PyWeights)
    (m : Model) (hm : construct gh ga th ta w = .ok m) :
    m.fitted = false ∧ m.params = [] := by
  simp only [construct] at hm
  split at hm
  · simp at hm
  · split at hm
    · cases hm; exact ⟨rfl, rfl⟩
    · split at hm
      · cases hm; exact ⟨rfl, rfl⟩
      · simp at hm

/-! ### Claim C3 -/

/-- Claim C3 counterexample: a construction call with a negative goal
count, a non-integer goal count and a negative weight succeeds, where the
claim demands an `InvalidInput` failure at construction time. -/
theorem C3_counterexample :
    ∃ m, construct [-1, 5/2] [0, 3] ["A", "B"] ["B", "A"]
      (PyWeights.seq [-1, 1]) = .ok m :=
  ⟨_, rfl⟩

/-- Claim C3 (amended): construction performs no input validation at all.
Whenever the two goal sequences are longest among the four input sequences
and have equal length, and the weights are a scalar or a sequence of that
length, construction succeeds — regardless of negative or non-integer goal
counts and of negative weights; no failure is ever detected eagerly. -/
theorem C3_no_construction_validation (gh ga : List ℚ) (th ta : List String)
    (w : PyWeights)
    (h1 : ga.length = gh.length) (h2 : th.length ≤ gh.length)
    (h3 : ta.length ≤ gh.length)
    (hw : ∀ ws, w = PyWeights.seq ws → ws.length = gh.length) :
    ∃ m, construct gh ga th ta w = .ok m ∧ m.fitted = false := by
  have hn : fixLen gh ga th ta = gh.length := by
    simp only [fixLen]; omega
  unfold construct
  rw [hn, if_neg (by omega)]
  cases w with
  | scalar w => exact ⟨_, rfl, rfl⟩
  | seq ws =>
    have hws : ws.length = gh.length := hw ws rfl
    exact ⟨_, by simp [hws]; rfl, rfl⟩

/-- Witness for the amended C3 at a concrete input with a negative goal
and a negative scalar weight. -/
theorem C3_witness :
    ∃ m, construct [-1] [3] ["A"] ["A"] (PyWeights.scalar (-2)) = .ok m ∧
      m.fitted = false :=
  C3_no_construction_validation [-1] [3] ["A"] ["A"] (PyWeights.scalar (-2))
    rfl (Nat.le.refl) (Nat.le.refl) (fun ws h => by cases h)

/-! ### Claim C4 -/

set_option maxRecDepth 8000 in
/-- Claim C4 counterexample: `predict` with an unknown team raises the
side-specific `ValueError`, but its message is a fixed string that does not
contain the unrecognized team name (here `Zebra`), where the claim demands
the literal team-name string in the message. -/
theorem C4_counterexample :
    predict mW "Zebra" "A" 5 = .error (.valueError noHomeParamsMsg) ∧
    predict mW "A" "Zebra" 5 = .error (.valueError noAwayParamsMsg) ∧
    ¬ ("Zebra".data <:+: noHomeParamsMsg.data) ∧
    ¬ ("Zebra".data <:+: noAwayParamsMsg.data) :=
  ⟨rfl, rfl, by decide, by decide⟩

/-- Claim C4 (amended): on a fitted model, an unknown `home_team` (checked
first) or unknown `away_team` fails with a `ValueError` whose fixed message
distinguishes the home side from the away side; the message does not
contain the team-name string. -/
theorem C4_unknown_team_amended (m : Model) (homeT awayT : String) (k : ℤ)
    (hf : m.fitted = true) :
    (m.teams.contains (some homeT) = false →
      predict m homeT awayT k = .error (.valueError noHomeParamsMsg)) ∧
    (m.teams.contains (some homeT) = true →
      m.teams.contains (some awayT) = false →
      predict m homeT awayT k = .error (.valueError noAwayParamsMsg)) ∧
    noHomeParamsMsg ≠ noAwayParamsMsg :=
  ⟨fun h1 => by
    have h1' : some homeT ∉ m.teams := by simpa using h1
    simp [predict, hf, h1'],
   fun h1 h2 => by
    have h1' : some homeT ∈ m.teams := by simpa using h1
    have h2' : some awayT ∉ m.teams := by simpa using h2
    simp [predict, hf, h1', h2'],
   by decide⟩

/-- Witness for the amended C4 at the concrete fitted model `mW`. -/
theorem C4_witness :
    ((mW.teams.contains (some "Zebra") = false →
      predict mW "Zebra" "B" 5 = .error (.valueError noHomeParamsMsg)) ∧
    (mW.teams.contains (some "Zebra") = true →
      mW.teams.contains (some "B") = false →
      predict mW "Zebra" "B" 5 = .error (.valueError noAwayParamsMsg)) ∧
    noHomeParamsMsg ≠ noAwayParamsMsg) :=
  C4_unknown_team_amended mW "Zebra" "B" 5 rfl

/-! ### Claim C5 -/

/-- Claim C5: on a freshly constructed model (on which `fit` has not
completed) both `predict` and `get_params` fail with the not-fitted
`ValueError` — the code's realisation of `NotFittedError`. -/
theorem C5_unfitted_rejection (gh ga : List ℚ) (th ta : List String)
    (w : PyWeights) (m : Model) (homeT awayT : String) (k : ℤ)
    (hm : construct gh ga th ta w = .ok m) :
    m.fitted = false ∧
    predict m homeT awayT k = .error (.valueError predictNotFittedMsg) ∧
    get_params m = .error (.valueError getParamsNotFittedMsg) := by
  obtain ⟨hf, -⟩ := construct_ok_unfitted gh ga th ta w m hm
  exact ⟨hf, by simp [predict, hf], by simp [get_params, hf]⟩

/-- Witness for C5 at the concrete freshly constructed model `mCW`. -/
theorem C5_witness :
    mCW.fitted = false ∧
    predict mCW "A" "B" 5 = .error (.valueError predictNotFittedMsg) ∧
    get_params mCW = .error (.valueError getParamsNotFittedMsg) :=
  C5_unfitted_rejection [1, 0] [0, 2] ["A", "B"] ["B", "A"]
    (PyWeights.scalar 1) mCW "A" "B" 5 rfl

/-! ### Claim C9 -/

/-- Claim C9: when the sampling step inside `fit` raises, the exception
propagates, the model state is unchanged and still unfitted, and
`predict` / `get_params` keep failing with the not-fitted `ValueError`. -/
theorem C9_sampling_failure_state (m : Model) (e : String)
    (homeT awayT : String) (k : ℤ) (hf : m.fitted = false) :
    (fit m (.error e)).1 = .error e ∧
    (fit m (.error e)).2 = m ∧
    (fit m (.error e)).2.fitted = false ∧
    predict (fit m (.error e)).2 homeT awayT k =
      .error (.valueError predictNotFittedMsg) ∧
    get_params (fit m (.error e)).2 =
      .error (.valueError getParamsNotFittedMsg) := by
  refine ⟨rfl, rfl, ?_, ?_, ?_⟩ <;> simp [fit, predict, get_params, hf]

/-- Witness for C9 at the concrete unfitted model `mCW`. -/
theorem C9_witness :
    (fit mCW (.error "sampler diverged")).1 = .error "sampler diverged" ∧
    (fit mCW (.error "sampler diverged")).2 = mCW ∧
    (fit mCW (.error "sampler diverged")).2.fitted = false ∧
    predict (fit mCW (.error "sampler diverged")).2 "A" "B" 5 =
      .error (.valueError predictNotFittedMsg) ∧
    get_params (fit mCW (.error "sampler diverged")).2 =
      .error (.valueError getParamsNotFittedMsg) :=
  C9_sampling_failure_state mCW "sampler diverged" "A" "B" 5 rfl

/-! ### Claim C10 -/

/-- Claim C10: `predict` does not validate `max_goals`: for any
non-positive `max_goals` it raises no argument error and returns the grid
built from two empty probability vectors, i.e. a `0 × 0` matrix. -/
theorem C10_no_max_goals_validation (m : Model) (homeT awayT : String)
    (k : ℤ) (vh vi vah vaa vdh vda : ℝ)
    (hf : m.fitted = true)
    (h1 : m.teams.contains (some homeT) = true)
    (h2 : m.teams.contains (some awayT) = true)
    (l1 : m.params.lookup "home" = some vh)
    (l2 : m.params.lookup "intercept" = some vi)
    (l3 : m.params.lookup ("attack_" ++ homeT) = some vah)
    (l4 : m.params.lookup ("attack_" ++ awayT) = some vaa)
    (l5 : m.params.lookup ("defence_" ++ homeT) = some vdh)
    (l6 : m.params.lookup ("defence_" ++ awayT) = some vda)
    (hk : k ≤ 0) :
    predict m homeT awayT k =
      .ok (FootballProbabilityGrid.mk [] (Real.exp (vi + vh + vah + vda))
        (Real.exp (vi + vaa + vdh))) := by
  rw [predict_ok m homeT awayT k vh vi vah vaa vdh vda hf h1 h2 l1 l2 l3 l4 l5 l6]
  simp [Int.toNat_of_nonpos hk]

/-- Witness for C10 at the concrete fitted model `mW` with `max_goals = 0`. -/
theorem C10_witness :
    predict mW "A" "B" 0 =
      .ok (FootballProbabilityGrid.mk [] (Real.exp (0 + 1 + 0 + 0))
        (Real.exp (0 + 0 + 0))) :=
  C10_no_max_goals_validation mW "A" "B" 0 1 0 0 0 0 0 rfl rfl rfl rfl rfl
    rfl rfl rfl rfl (by decide)

/-! ### Claim C1 -/

/-- Claim C1: on a fitted model with two known teams, `predict` computes
`home_rate = exp(intercept + home_advantage + attack[home] + defence[away])`
and `away_rate = exp(intercept + attack[away] + defence[home])` from the
stored point estimates (the home-advantage estimate is stored under the key
`home`), and returns the grid that is exactly the outer product of the two
truncated Poisson mass vectors of length `max_goals`, home outcome as the
row index. -/
theorem C1_predict_formula (m : Model) (homeT awayT : String) (k : ℤ)
    (vh vi vah vaa vdh vda : ℝ)
    (hf : m.fitted = true)
    (h1 : m.teams.contains (some homeT) = true)
    (h2 : m.teams.contains (some awayT) = true)
    (l1 : m.params.lookup "home" = some vh)
    (l2 : m.params.lookup "intercept" = some vi)
    (l3 : m.params.lookup ("attack_" ++ homeT) = some vah)
    (l4 : m.params.lookup ("attack_" ++ awayT) = some vaa)
    (l5 : m.params.lookup ("defence_" ++ homeT) = some vdh)
    (l6 : m.params.lookup ("defence_" ++ awayT) = some vda)
    (hk : 0 ≤ k) :
    predict m homeT awayT k =
      .ok (FootballProbabilityGrid.mk
        (claimOuterGrid (Real.exp (vi + vh + vah + vda))
          (Real.exp (vi + vaa + vdh)) k.toNat)
        (Real.exp (vi + vh + vah + vda)) (Real.exp (vi + vaa + vdh))) ∧
    ((claimOuterGrid (Real.exp (vi + vh + vah + vda))
        (Real.exp (vi + vaa + vdh)) k.toNat).length : ℤ) = k := by
  refine ⟨?_, ?_⟩
  · rw [predict_ok m homeT awayT k vh vi vah vaa vdh vda hf h1 h2 l1 l2 l3 l4 l5 l6]
    rfl
  · simp [claimOuterGrid, Int.toNat_of_nonneg hk]

/-- Witness for C1 at the concrete fitted model `mW` with `max_goals = 5`. -/
theorem C1_witness :
    (predict mW "A" "B" 5 =
      .ok (FootballProbabilityGrid.mk
        (claimOuterGrid (Real.exp (0 + 1 + 0 + 0)) (Real.exp (0 + 0 + 0))
          (Int.toNat 5))
        (Real.exp (0 + 1 + 0 + 0)) (Real.exp (0 + 0 + 0))) ∧
    ((claimOuterGrid (Real.exp (0 + 1 + 0 + 0)) (Real.exp (0 + 0 + 0))
        (Int.toNat 5)).length : ℤ) = 5) :=
  C1_predict_formula mW "A" "B" 5 1 0 0 0 0 0 rfl rfl rfl rfl rfl rfl rfl
    rfl rfl (by decide)

/-! ### Claim C7: helper lemmas about the Poisson mass vectors -/

lemma listRangeSum (f : ℕ → ℝ) (n : ℕ) :
    ((List.range n).map f).sum = ∑ i ∈ Finset.range n, f i := by
  induction n with
  | zero => simp
  | succ n ih =>
    rw [List.range_succ, List.map_append, List.sum_append,
      Finset.sum_range_succ, ih]
    simp

lemma poissonPmf_nonneg (r : ℝ) (hr : 0 ≤ r) (i : ℕ) : 0 ≤ poissonPmf r i :=
  div_nonneg (mul_nonneg (Real.exp_pos _).le (pow_nonneg hr i))
    (Nat.cast_nonneg _)

lemma poissonPmf_sum_le_one (r : ℝ) (hr : 0 ≤ r) (n : ℕ) :
    ∑ i ∈ Finset.range n, poissonPmf r i ≤ 1 := by
  have h1 : ∑ i ∈ Finset.range n, poissonPmf r i
      = Real.exp (-r) * ∑ i ∈ Finset.range n, r ^ i / (Nat.factorial i) := by
    rw [Finset.mul_sum]
    exact Finset.sum_congr rfl fun i _ => by rw [poissonPmf, mul_div_assoc]
  rw [h1]
  calc Real.exp (-r) * ∑ i ∈ Finset.range n, r ^ i / (Nat.factorial i)
      ≤ Real.exp (-r) * Real.exp r :=
        mul_le_mul_of_nonneg_left (Real.sum_le_exp_of_nonneg hr n)
          (Real.exp_pos _).le
    _ = 1 := by rw [← Real.exp_add]; simp

lemma poissonPmf_sum_nonneg (r : ℝ) (hr : 0 ≤ r) (n : ℕ) :
    0 ≤ ∑ i ∈ Finset.range n, poissonPmf r i :=
  Finset.sum_nonneg fun i _ => poissonPmf_nonneg r hr i

lemma poissonPmf_sum_mono (r : ℝ) (hr : 0 ≤ r) {n n' : ℕ} (h : n ≤ n') :
    ∑ i ∈ Finset.range n, poissonPmf r i ≤
      ∑ i ∈ Finset.range n', poissonPmf r i :=
  Finset.sum_le_sum_of_subset_of_nonneg (Finset.range_subset.2 h)
    fun i _ _ => poissonPmf_nonneg r hr i

lemma gridSum_outer (f g : ℕ → ℝ) (n : ℕ) :
    gridSum ((List.range n).map fun i => (List.range n).map fun j => f i * g j)
      = (∑ i ∈ Finset.range n, f i) * (∑ j ∈ Finset.range n, g j) := by
  unfold gridSum
  rw [List.map_map]
  have h : (List.sum ∘ fun i => (List.range n).map fun j => f i * g j)
      = fun i => f i * ∑ j ∈ Finset.range n, g j := by
    funext i
    simp only [Function.comp, listRangeSum, Finset.mul_sum]
  rw [h, listRangeSum, ← Finset.sum_mul]

/-- Claim C7: for `k > 0`, `predict` returns a `k × k` grid of nonnegative
entries whose total mass is at most 1, and the captured mass is monotone
non-decreasing in `max_goals`. -/
theorem C7_grid_properties (m : Model) (homeT awayT : String) (k k' : ℤ)
    (vh vi vah vaa vdh vda : ℝ)
    (hf : m.fitted = true)
    (h1 : m.teams.contains (some homeT) = true)
    (h2 : m.teams.contains (some awayT) = true)
    (l1 : m.params.lookup "home" = some vh)
    (l2 : m.params.lookup "intercept" = some vi)
    (l3 : m.params.lookup ("attack_" ++ homeT) = some vah)
    (l4 : m.params.lookup ("attack_" ++ awayT) = some vaa)
    (l5 : m.params.lookup ("defence_" ++ homeT) = some vdh)
    (l6 : m.params.lookup ("defence_" ++ awayT) = some vda)
    (hk : 0 < k) (hkk : k ≤ k') :
    ∃ g g', predict m homeT awayT k = .ok g ∧
      predict m homeT awayT k' = .ok g' ∧
      (g.grid.length : ℤ) = k ∧
      (∀ row ∈ g.grid, (row.length : ℤ) = k) ∧
      (∀ row ∈ g.grid, ∀ x ∈ row, 0 ≤ x) ∧
      gridSum g.grid ≤ 1 ∧
      gridSum g.grid ≤ gridSum g'.grid := by
  have hrh : (0:ℝ) ≤ Real.exp (vi + vh + vah + vda) := (Real.exp_pos _).le
  have hra : (0:ℝ) ≤ Real.exp (vi + vaa + vdh) := (Real.exp_pos _).le
  refine ⟨_, _,
    predict_ok m homeT awayT k vh vi vah vaa vdh vda hf h1 h2 l1 l2 l3 l4 l5 l6,
    predict_ok m homeT awayT k' vh vi vah vaa vdh vda hf h1 h2 l1 l2 l3 l4 l5 l6,
    ?_, ?_, ?_, ?_, ?_⟩
  · simp [Int.toNat_of_nonneg hk.le]
  · intro row hrow
    simp only [List.mem_map, List.mem_range] at hrow
    obtain ⟨i, -, rfl⟩ := hrow
    simp [Int.toNat_of_nonneg hk.le]
  · intro row hrow x hx
    simp only [List.mem_map, List.mem_range] at hrow
    obtain ⟨i, -, rfl⟩ := hrow
    simp only [List.mem_map, List.mem_range] at hx
    obtain ⟨j, -, rfl⟩ := hx
    exact mul_nonneg (poissonPmf_nonneg _ hrh i) (poissonPmf_nonneg _ hra j)
  · rw [gridSum_outer]
    exact mul_le_one₀ (poissonPmf_sum_le_one _ hrh _)
      (poissonPmf_sum_nonneg _ hra _) (poissonPmf_sum_le_one _ hra _)
  · rw [gridSum_outer, gridSum_outer]
    exact mul_le_mul (poissonPmf_sum_mono _ hrh (Int.toNat_le_toNat hkk))
      (poissonPmf_sum_mono _ hra (Int.toNat_le_toNat hkk))
      (poissonPmf_sum_nonneg _ hra _) (poissonPmf_sum_nonneg _ hrh _)

/-- Witness for C7 at the concrete fitted model `mW` with
`max_goals = 1` and `max_goals = 2`. -/
theorem C7_witness :
    ∃ g g', predict mW "A" "B" 1 = .ok g ∧ predict mW "A" "B" 2 = .ok g' ∧
      (g.grid.length : ℤ) = 1 ∧
      (∀ row ∈ g.grid, (row.length : ℤ) = 1) ∧
      (∀ row ∈ g.grid, ∀ x ∈ row, 0 ≤ x) ∧
      gridSum g.grid ≤ 1 ∧
      gridSum g.grid ≤ gridSum g'.grid :=
  C7_grid_properties mW "A" "B" 1 2 1 0 0 0 0 0 rfl rfl rfl rfl rfl rfl rfl
    rfl rfl (by decide) (by decide)

/-! ### Claims C2 and C6: the parameter store written by `fit` -/

lemma attack_key_ne_home (t : String) : "attack_" ++ t ≠ "home" := by
  intro h
  have h2 := congrArg String.data h
  rw [String.data_append] at h2
  simp at h2

lemma attack_key_ne_intercept (t : String) : "attack_" ++ t ≠ "intercept" := by
  intro h
  have h2 := congrArg String.data h
  rw [String.data_append] at h2
  simp at h2

lemma defence_key_ne_home (t : String) : "defence_" ++ t ≠ "home" := by
  intro h
  have h2 := congrArg String.data h
  rw [String.data_append] at h2
  simp at h2

lemma defence_key_ne_intercept (t : String) : "defence_" ++ t ≠ "intercept" := by
  intro h
  have h2 := congrArg String.data h
  rw [String.data_append] at h2
  simp at h2

lemma attack_key_inj {t u : String} (h : "attack_" ++ t = "attack_" ++ u) :
    t = u := by
  have h2 := congrArg String.data h
  rw [String.data_append, String.data_append] at h2
  exact String.ext (List.append_cancel_left h2)

lemma defence_key_inj {t u : String} (h : "defence_" ++ t = "defence_" ++ u) :
    t = u := by
  have h2 := congrArg String.data h
  rw [String.data_append, String.data_append] at h2
  exact String.ext (List.append_cancel_left h2)

lemma attack_key_ne_defence_key (t u : String) :
    "attack_" ++ t ≠ "defence_" ++ u := by
  intro h
  have h2 := congrArg String.data h
  rw [String.data_append, String.data_append] at h2
  simp at h2

lemma lookup_cons_self (k : String) (v : ℝ) (rest : List (String × ℝ)) :
    List.lookup k ((k, v) :: rest) = some v := by
  rw [List.lookup, beq_self_eq_true]

lemma lookup_cons_ne {v : ℝ} {k k' : String} (rest : List (String × ℝ))
    (h : k ≠ k') : List.lookup k ((k', v) :: rest) = List.lookup k rest := by
  rw [List.lookup, beq_false_of_ne h]

lemma teamParams_complete (tr : Trace) (n : ℕ) (ts : List (Option String))
    (idx : ℕ) (hall : ∀ x ∈ ts, x.isSome = true) :
    (teamParams tr n ts idx).2 = true := by
  induction ts generalizing idx with
  | nil => rfl
  | cons a rest ih =>
    cases a with
    | none => exact absurd (hall none (by simp)) (by simp)
    | some t =>
      simp only [teamParams]
      exact ih (idx + 1) fun x hx => hall x (List.mem_cons_of_mem _ hx)

lemma teamParams_keys (tr : Trace) (n : ℕ) (ts : List (Option String))
    (idx : ℕ) (hall : ∀ x ∈ ts, x.isSome = true) (s : String) :
    s ∈ (teamParams tr n ts idx).1.map Prod.fst ↔
      ∃ t, some t ∈ ts ∧ (s = "attack_" ++ t ∨ s = "defence_" ++ t) := by
  induction ts generalizing idx with
  | nil => simp [teamParams]
  | cons a rest ih =>
    cases a with
    | none => exact absurd (hall none (by simp)) (by simp)
    | some t =>
      have ih' := ih (idx + 1) fun x hx => hall x (List.mem_cons_of_mem _ hx)
      simp only [teamParams, List.map_cons, List.mem_cons, ih']
      constructor
      · rintro (h | h | ⟨u, hu, h⟩)
        · exact ⟨t, Or.inl rfl, Or.inl h⟩
        · exact ⟨t, Or.inl rfl, Or.inr h⟩
        · exact ⟨u, Or.inr hu, h⟩
      · rintro ⟨u, (hu | hu), h⟩
        · cases Option.some.inj hu
          rcases h with h | h
          · exact Or.inl h
          · exact Or.inr (Or.inl h)
        · exact Or.inr (Or.inr ⟨u, hu, h⟩)

lemma teamParams_lookup (tr : Trace) (n : ℕ) (ts : List (Option String))
    (hall : ∀ x ∈ ts, x.isSome = true) (hnd : ts.Nodup) (idx i : ℕ)
    (t : String) (hit : ts[i]? = some (some t)) :
    (teamParams tr n ts idx).1.lookup ("attack_" ++ t) =
      some (attackValue tr n (idx + i)) ∧
    (teamParams tr n ts idx).1.lookup ("defence_" ++ t) =
      some (defenceValue tr n (idx + i)) := by
  induction ts generalizing idx i with
  | nil => simp at hit
  | cons a rest ih =>
    cases a with
    | none => exact absurd (hall none (by simp)) (by simp)
    | some u =>
      cases i with
      | zero =>
        have ht : u = t := Option.some.inj (by simpa using hit)
        subst ht
        simp only [teamParams, Nat.add_zero]
        refine ⟨lookup_cons_self _ _ _, ?_⟩
        rw [lookup_cons_ne _ (Ne.symm (attack_key_ne_defence_key u u))]
        exact lookup_cons_self _ _ _
      | succ j =>
        have hit' : rest[j]? = some (some t) := by simpa using hit
        have hmem : some t ∈ rest := List.getElem?_mem hit'
        obtain ⟨hne, hndr⟩ := List.nodup_cons.mp hnd
        have htu : t ≠ u := fun h => hne (h ▸ hmem)
        have ih' := ih (fun x hx => hall x (List.mem_cons_of_mem _ hx)) hndr
          (idx + 1) j hit'
        have he : idx + 1 + j = idx + (j + 1) := by omega
        rw [he] at ih'
        simp only [teamParams]
        constructor
        · rw [lookup_cons_ne _ (fun h => htu (attack_key_inj h)),
            lookup_cons_ne _ (attack_key_ne_defence_key t u)]
          exact ih'.1
        · rw [lookup_cons_ne _ (Ne.symm (attack_key_ne_defence_key u t)),
            lookup_cons_ne _ (fun h => htu (defence_key_inj h))]
          exact ih'.2

lemma fit_ok_params (m : Model) (tr : Trace) :
    (fit m (.ok tr)).2.params =
      ("home", meanList (tr.map Draw.home)) ::
      ("intercept", meanList (tr.map Draw.intercept)) ::
      (teamParams tr m.nTeams m.teams 0).1 := by
  simp only [fit]
  split <;> rfl

lemma fit_ok_fitted (m : Model) (tr : Trace)
    (hall : ∀ x ∈ m.teams, x.isSome = true) :
    (fit m (.ok tr)).2.fitted = true := by
  have h := teamParams_complete tr m.nTeams m.teams 0 hall
  simp only [fit]
  split
  · next h2 => exact h2
  · next h2 => exact absurd h h2

/-- Claim C2 (amended): after a successful `fit`, the parameter store's
key set is exactly `home` and `intercept` (the home-advantage estimate is
stored under the literal key `home`, not `home_advantage`) together with
`attack_<team>` / `defence_<team>` for each distinct home-side team name,
and each stored value is the arithmetic mean of that latent variable's
pooled post-warm-up samples (the team values being means of the per-draw
centered values). -/
theorem C2_param_store (m : Model) (tr : Trace)
    (hall : ∀ x ∈ m.teams, x.isSome = true) (hnd : m.teams.Nodup) :
    (∀ s, s ∈ (fit m (.ok tr)).2.params.map Prod.fst ↔
      s = "home" ∨ s = "intercept" ∨
        ∃ t, some t ∈ m.teams ∧ (s = "attack_" ++ t ∨ s = "defence_" ++ t)) ∧
    (fit m (.ok tr)).2.params.lookup "home" =
      some (meanList (tr.map Draw.home)) ∧
    (fit m (.ok tr)).2.params.lookup "intercept" =
      some (meanList (tr.map Draw.intercept)) ∧
    (∀ i t, m.teams[i]? = some (some t) →
      (fit m (.ok tr)).2.params.lookup ("attack_" ++ t) =
        some (attackValue tr m.nTeams i) ∧
      (fit m (.ok tr)).2.params.lookup ("defence_" ++ t) =
        some (defenceValue tr m.nTeams i)) := by
  rw [fit_ok_params]
  refine ⟨?_, ?_, ?_, ?_⟩
  · intro s
    simp only [List.map_cons, List.mem_cons,
      teamParams_keys tr m.nTeams m.teams 0 hall s]
  · exact lookup_cons_self _ _ _
  · rw [lookup_cons_ne _ (by decide : "intercept" ≠ "home")]
    exact lookup_cons_self _ _ _
  · intro i t hit
    have h := teamParams_lookup tr m.nTeams m.teams hall hnd 0 i t hit
    rw [Nat.zero_add] at h
    constructor
    · rw [lookup_cons_ne _ (attack_key_ne_home t),
        lookup_cons_ne _ (attack_key_ne_intercept t)]
      exact h.1
    · rw [lookup_cons_ne _ (defence_key_ne_home t),
        lookup_cons_ne _ (defence_key_ne_intercept t)]
      exact h.2

/-- Claim C2 counterexample: after fitting the concretely constructed
model, the literal key `home_advantage` demanded by the claim is not among
the stored parameter keys (the scalar is stored under `home`). -/
theorem C2_counterexample :
    "home_advantage" ∉ (fit mCW (.ok trW)).2.params.map Prod.fst := by
  rw [fit_ok_params]
  have ht : mCW.teams = [some "A", some "B"] := rfl
  rw [ht]
  simp only [teamParams, List.map_cons, List.mem_cons]
  intro h
  rcases h with h | h | h | h | h | h | h
  · exact absurd h (by decide)
  · exact absurd h (by decide)
  · exact absurd h (by decide)
  · exact absurd h (by decide)
  · exact absurd h (by decide)
  · exact absurd h (by decide)
  · simp [teamParams] at h

/-- Witness for the amended C2 at the concrete model and trace. -/
theorem C2_witness :
    (fit mCW (.ok trW)).2.params.lookup "home" =
      some (meanList (trW.map Draw.home)) :=
  (C2_param_store mCW trW (by decide) (by decide)).2.1

lemma sum_range_attsOf (d : Draw) (n : ℕ) :
    ∑ i ∈ Finset.range n, attsOf n d i = 0 := by
  rcases Nat.eq_zero_or_pos n with h | h
  · subst h; simp
  · have hn : (n:ℝ) ≠ 0 := Nat.cast_ne_zero.mpr h.ne'
    simp only [attsOf, Finset.sum_sub_distrib, Finset.sum_const,
      Finset.card_range, nsmul_eq_mul]
    rw [mul_comm, div_mul_cancel₀ _ hn, sub_self]

lemma sum_range_defsOf (d : Draw) (n : ℕ) :
    ∑ i ∈ Finset.range n, defsOf n d i = 0 := by
  rcases Nat.eq_zero_or_pos n with h | h
  · subst h; simp
  · have hn : (n:ℝ) ≠ 0 := Nat.cast_ne_zero.mpr h.ne'
    simp only [defsOf, Finset.sum_sub_distrib, Finset.sum_const,
      Finset.card_range, nsmul_eq_mul]
    rw [mul_comm, div_mul_cancel₀ _ hn, sub_self]

lemma list_sum_swap (l : List Draw) (f : Draw → ℕ → ℝ) (n : ℕ) :
    ∑ i ∈ Finset.range n, (l.map fun d => f d i).sum =
      (l.map fun d => ∑ i ∈ Finset.range n, f d i).sum := by
  induction l with
  | nil => simp
  | cons d rest ih =>
    simp only [List.map_cons, List.sum_cons, Finset.sum_add_distrib, ih]

lemma attackValue_mean_zero (tr : Trace) (n : ℕ) :
    (∑ i ∈ Finset.range n, attackValue tr n i) / n = 0 := by
  have h : ∑ i ∈ Finset.range n, attackValue tr n i = 0 := by
    simp only [attackValue, meanList, List.length_map]
    rw [← Finset.sum_div, list_sum_swap]
    rw [List.map_congr_left fun d _ => sum_range_attsOf d n]
    simp
  rw [h, zero_div]

lemma defenceValue_mean_zero (tr : Trace) (n : ℕ) :
    (∑ i ∈ Finset.range n, defenceValue tr n i) / n = 0 := by
  have h : ∑ i ∈ Finset.range n, defenceValue tr n i = 0 := by
    simp only [defenceValue, meanList, List.length_map]
    rw [← Finset.sum_div, list_sum_swap]
    rw [List.map_congr_left fun d _ => sum_range_defsOf d n]
    simp
  rw [h, zero_div]

/-- Claim C6: after a successful `fit`, the mean over all teams of the
stored attack point estimates is exactly 0, and likewise for defence,
because every posterior draw is centered by subtracting the per-draw mean
before aggregation; the stored `attack_<team>` / `defence_<team>` entries
are exactly these per-index means. -/
theorem C6_centering_invariant (m : Model) (tr : Trace)
    (hall : ∀ x ∈ m.teams, x.isSome = true) (hnd : m.teams.Nodup) :
    (fit m (.ok tr)).2.fitted = true ∧
    (∑ i ∈ Finset.range m.nTeams, attackValue tr m.nTeams i) / m.nTeams = 0 ∧
    (∑ i ∈ Finset.range m.nTeams, defenceValue tr m.nTeams i) / m.nTeams = 0 ∧
    (∀ i t, m.teams[i]? = some (some t) →
      (fit m (.ok tr)).2.params.lookup ("attack_" ++ t) =
        some (attackValue tr m.nTeams i) ∧
      (fit m (.ok tr)).2.params.lookup ("defence_" ++ t) =
        some (defenceValue tr m.nTeams i)) := by
  refine ⟨fit_ok_fitted m tr hall, attackValue_mean_zero tr m.nTeams,
    defenceValue_mean_zero tr m.nTeams, ?_⟩
  intro i t hit
  have h := teamParams_lookup tr m.nTeams m.teams hall hnd 0 i t hit
  rw [Nat.zero_add] at h
  rw [fit_ok_params]
  constructor
  · rw [lookup_cons_ne _ (attack_key_ne_home t),
      lookup_cons_ne _ (attack_key_ne_intercept t)]
    exact h.1
  · rw [lookup_cons_ne _ (defence_key_ne_home t),
      lookup_cons_ne _ (defence_key_ne_intercept t)]
    exact h.2

/-- Witness for C6 at the concrete model and trace. -/
theorem C6_witness :
    (fit mCW (.ok trW)).2.fitted = true ∧
    (∑ i ∈ Finset.range mCW.nTeams, attackValue trW mCW.nTeams i) /
      mCW.nTeams = 0 ∧
    (∑ i ∈ Finset.range mCW.nTeams, defenceValue trW mCW.nTeams i) /
      mCW.nTeams = 0 ∧
    (∀ i t, mCW.teams[i]? = some (some t) →
      (fit mCW (.ok trW)).2.params.lookup ("attack_" ++ t) =
        some (attackValue trW mCW.nTeams i) ∧
      (fit mCW (.ok trW)).2.params.lookup ("defence_" ++ t) =
        some (defenceValue trW mCW.nTeams i)) :=
  C6_centering_invariant mCW trW (by decide) (by decide)

/-! ### Claim C8: `get_params` hands out the live dictionary -/

lemma setKey_lookup_self (d : List (String × ℝ)) (k : String) (v : ℝ) :
    (setKey d k v).lookup k = some v := by
  induction d with
  | nil => exact lookup_cons_self k v []
  | cons p rest ih =>
    obtain ⟨k', v'⟩ := p
    by_cases h : k' = k
    · subst h
      simp only [setKey, if_pos rfl]
      exact lookup_cons_self _ _ _
    · simp only [setKey, if_neg h]
      rw [lookup_cons_ne _ (Ne.symm h)]
      exact ih

lemma readDict_writeKey_self (h : Heap) (r : ℕ) (k : String) (v : ℝ)
    (hr : r < h.cells.length) :
    readDict (writeKey h r k v) r = setKey (readDict h r) k v := by
  simp [readDict, writeKey, List.getD, List.getElem?_set_self, hr]

/-- Claim C8 (amended): `get_params` returns the Parameter Store itself, a
live view, not a snapshot copy: writing a key through the returned
reference changes the model's stored parameters, and a repeated read
through the same reference observes the new value. -/
theorem C8_live_view (h : Heap) (hm : HeapModel) (k : String) (v : ℝ)
    (hf : hm.base.fitted = true) (hr : hm.paramsRef < h.cells.length)
    (hv : (readDict h hm.paramsRef).lookup k ≠ some v) :
    get_paramsH h hm = .ok hm.paramsRef ∧
    (readDict (writeKey h hm.paramsRef k v) hm.paramsRef).lookup k = some v ∧
    readDict (writeKey h hm.paramsRef k v) hm.paramsRef ≠
      readDict h hm.paramsRef := by
  have hread := readDict_writeKey_self h hm.paramsRef k v hr
  have h2 : (readDict (writeKey h hm.paramsRef k v) hm.paramsRef).lookup k
      = some v := by rw [hread]; exact setKey_lookup_self _ _ _
  refine ⟨by simp [get_paramsH, hf], h2, ?_⟩
  intro heq
  rw [heq] at h2
  exact hv h2

/-- The concrete heap holding the fitted model's parameter dictionary in
cell 0, with all estimates 0. -/
noncomputable def hW : Heap :=
  Heap.mk [[("home", 0), ("intercept", 0), ("attack_A", 0), ("defence_A", 0),
    ("attack_B", 0), ("defence_B", 0)]]

/-- The concrete fitted model object whose `params` dictionary is cell 0
of the heap. -/
noncomputable def hmW : HeapModel := HeapModel.mk mW 0

set_option maxRecDepth 16000 in
/-- Claim C8 counterexample: `get_params` returns the reference to the
model's own dictionary; writing `home = 1` through that reference changes
the stored parameters and the result of a subsequent `predict` call, where
the claim says mutation of the returned mapping changes neither. -/
theorem C8_counterexample :
    get_paramsH hW hmW = .ok 0 ∧
    readDict (writeKey hW 0 "home" 1) 0 ≠ readDict hW 0 ∧
    predictH (writeKey hW 0 "home" 1) hmW "A" "B" 1 ≠
      predictH hW hmW "A" "B" 1 := by
  refine ⟨rfl, ?_, ?_⟩
  · intro heq
    have h2 : (some (1:ℝ)) = some 0 :=
      congrArg (fun l => List.lookup "home" l) heq
    exact one_ne_zero (Option.some.inj h2)
  · intro heq
    have e1 : predictH (writeKey hW 0 "home" 1) hmW "A" "B" 1 =
        .ok (FootballProbabilityGrid.mk
          [[poissonPmf (Real.exp (0 + 1 + 0 + 0)) 0 *
              poissonPmf (Real.exp (0 + 0 + 0)) 0]]
          (Real.exp (0 + 1 + 0 + 0)) (Real.exp (0 + 0 + 0))) := rfl
    have e2 : predictH hW hmW "A" "B" 1 =
        .ok (FootballProbabilityGrid.mk
          [[poissonPmf (Real.exp (0 + 0 + 0 + 0)) 0 *
              poissonPmf (Real.exp (0 + 0 + 0)) 0]]
          (Real.exp (0 + 0 + 0 + 0)) (Real.exp (0 + 0 + 0))) := rfl
    rw [e1, e2] at heq
    simp only [Except.ok.injEq, FootballProbabilityGrid.mk.injEq] at heq
    have h3 := heq.2.1
    rw [Real.exp_eq_exp] at h3
    norm_num at h3

/-- Witness for the amended C8 at the concrete heap and model. -/
theorem C8_witness :
    get_paramsH hW hmW = .ok hmW.paramsRef ∧
    (readDict (writeKey hW hmW.paramsRef "home" 1) hmW.paramsRef).lookup
      "home" = some 1 ∧
    readDict (writeKey hW hmW.paramsRef "home" 1) hmW.paramsRef ≠
      readDict hW hmW.paramsRef :=
  C8_live_view hW hmW "home" 1 rfl (by decide)
    (by
      intro h
      have h2 : (some (0:ℝ)) = some 1 := h
      exact zero_ne_one (Option.some.inj h2))

end PenaltyBlog
